import Mathlib

set_option maxRecDepth 4000

/-!
# Shallow embedding of the clawdbot-feishu plugin

This file embeds, in Lean 4, the data model and operations of the
Feishu/Lark tool plugin (src/probe.ts, src/calendar.ts, src/feed.ts,
src/vc-events.ts, src/meeting.ts) and proves the specification claims
about them.

Remote HTTP calls are modelled by passing the vendor responses as
explicit arguments (the "network oracle") and returning, next to the
result, the list of remote calls the operation issued, so that
"performs no remote call" and "performs exactly one remote call" are
provable statements.  JavaScript string truthiness (`if (s)` is false
for the empty string) is modelled explicitly wherever the source relies
on it.  Thrown exceptions are modelled with `Except String`.
-/

namespace Feishu

/-- JavaScript truthiness of an optional string: `undefined` and `""` are
falsy, every other string is truthy. -/
def strTruthy : Option String → Bool
  | none => false
  | some s => s ≠ ""

/-- Leading-pattern check on character lists (`startsWith` written as a
structural recursion so that it evaluates in the kernel). -/
def charsStartWith : List Char → List Char → Bool
  | [], _ => true
  | _ :: _, [] => false
  | p :: ps, c :: cs => p = c && charsStartWith ps cs

/-- Model of `s.startsWith(pre)` of the source. -/
def strStartsWith (s pre : String) : Bool :=
  charsStartWith pre.data s.data

-- ===================================================================
-- src/probe.ts
-- ===================================================================

/-- Credentials of a Feishu account (src/client.ts `FeishuClientCredentials`;
only the two fields probe.ts reads are modelled). -/
structure FeishuClientCredentials where
  appId : String
  appSecret : String
  deriving Repr, DecidableEq

/-- Result of a probe (src/types.ts `FeishuProbeResult` as constructed by
probe.ts: `ok` always set, the other fields optional). -/
structure FeishuProbeResult where
  ok : Bool
  appId : Option String := none
  botName : Option String := none
  botOpenId : Option String := none
  error : Option String := none
  deriving Repr, DecidableEq

/-- Bot object of the `bot/v3/info` response (fields probe.ts reads). -/
structure BotInfo where
  bot_name : Option String := none
  open_id : Option String := none
  deriving Repr, DecidableEq

/-- The outcome of the remote `bot/v3/info` request: either a response
(with a `code`, an optional `msg`, and the bot object either at the top
level or under `data`), or a thrown exception with a message. -/
inductive ProbeNet where
  | resp (code : Int) (msg : Option String) (bot : Option BotInfo)
      (dataBot : Option BotInfo)
  | exn (message : String)
  deriving Repr, DecidableEq

/-- Model of `response.bot || response.data?.bot` of probe.ts. -/
def ProbeNet.botOf : ProbeNet → Option BotInfo
  | .resp _ _ (some b) _ => some b
  | .resp _ _ none dataBot => dataBot
  | .exn _ => none

/-- Modelled from the spec: the probe result cache (src/probe-cache.ts is
not under src/; probe.ts imports `getCachedProbeResult` and
`setCachedProbeResult` from it).  Per the spec it is "a single memoized
value keyed by account id with a TTL": at most one entry, holding the
appId it is keyed by, the memoized result, and the expiry instant. -/
structure ProbeCache where
  entry : Option (String × FeishuProbeResult × Nat) := none
  deriving Repr, DecidableEq

/-- Modelled from the spec: cache lookup keyed by appId, honouring the
TTL — a hit requires the stored key to equal the requested appId and the
entry not to have expired at the current instant `now`. -/
def getCachedProbeResult (cache : ProbeCache) (appId : String) (now : Nat) :
    Option FeishuProbeResult :=
  match cache.entry with
  | some (id, r, expiresAt) => if id = appId ∧ now < expiresAt then some r else none
  | none => none

/-- Modelled from the spec: storing a probe result replaces the single
memoized value, keyed by the appId, expiring `ttl` after `now`. -/
def setCachedProbeResult (_cache : ProbeCache) (result : FeishuProbeResult)
    (appId : String) (now ttl : Nat) : ProbeCache :=
  { entry := some (appId, result, now + ttl) }

/-- The probe result constructed from the remote outcome
(the body of the `try`/`catch` of `probeFeishu`). -/
def probeResultOfNet (appId : String) (net : ProbeNet) : FeishuProbeResult :=
  match net with
  | .resp code msg bot dataBot =>
      if code ≠ 0 then
        { ok := false
          appId := some appId
          error := some ("API error: " ++
            (match msg with
             | some m => if m ≠ "" then m else "code " ++ toString code
             | none => "code " ++ toString code)) }
      else
        let b := ProbeNet.botOf (.resp code msg bot dataBot)
        { ok := true
          appId := some appId
          botName := b.bind BotInfo.bot_name
          botOpenId := b.bind BotInfo.open_id }
  | .exn message =>
      { ok := false, appId := some appId, error := some message }

/-- Model of `probeFeishu` (src/probe.ts).  Returns the probe result, the cache
after the call, and the number of remote `bot/v3/info` requests issued.
`creds` may be absent; empty appId/appSecret are falsy in the source
(`!creds?.appId || !creds?.appSecret`). -/
def probeFeishu (creds : Option FeishuClientCredentials) (cache : ProbeCache)
    (now ttl : Nat) (net : ProbeNet) :
    FeishuProbeResult × ProbeCache × Nat :=
  match creds with
  | none => ({ ok := false, error := some "missing credentials (appId, appSecret)" }, cache, 0)
  | some c =>
      if c.appId = "" ∨ c.appSecret = "" then
        ({ ok := false, error := some "missing credentials (appId, appSecret)" }, cache, 0)
      else
        match getCachedProbeResult cache c.appId now with
        | some cached => (cached, cache, 0)
        | none =>
            let result := probeResultOfNet c.appId net
            (result, setCachedProbeResult cache result c.appId now ttl, 1)

-- ===================================================================
-- User-id normalization (src/feed.ts and src/vc-events.ts, identical)
-- ===================================================================

/-- The `user_ids` parameter may be a lone string or an array of strings
(feed.ts/vc-events.ts `user_ids?: string | string[]`). -/
inductive StrOrList where
  | str (s : String)
  | list (xs : List String)
  deriving Repr, DecidableEq

/-- The parameter shape `{ user_id?: string; user_ids?: string | string[] }`
accepted by `normalizeUserIds`. -/
structure UserIdParams where
  user_id : Option String := none
  user_ids : Option StrOrList := none
  deriving Repr, DecidableEq

/-- The entries contributed by `user_ids` in `normalizeUserIds`:
`if (params.user_ids)` is a truthiness test, so a lone empty string is
skipped while an array (even empty) is spread into the list. -/
def userIdsEntries : Option StrOrList → List String
  | some (.str s) => if s ≠ "" then [s] else []
  | some (.list xs) => xs
  | none => []

/-- Model of `normalizeUserIds` (src/feed.ts lines 22–43 and src/vc-events.ts,
identical): collect the `user_ids` entries, then
`if (params.user_id && !ids.includes(params.user_id)) ids.unshift(...)`. -/
def normalizeUserIds (p : UserIdParams) : List String :=
  let ids := userIdsEntries p.user_ids
  match p.user_id with
  | some u => if u ≠ "" ∧ u ∉ ids then u :: ids else ids
  | none => ids

/-- The normalization exactly as the claim words it: the `user_ids`
entries in order, a lone string becoming a one-element list, with
`user_id` prepended at index 0 iff it is provided and not already among
those entries (no empty-string exception).  For comparison with
`normalizeUserIds`. -/
def specNormalizeUserIds (p : UserIdParams) : List String :=
  let entries :=
    match p.user_ids with
    | some (.str s) => [s]
    | some (.list xs) => xs
    | none => []
  match p.user_id with
  | some u => if u ∉ entries then u :: entries else entries
  | none => entries

/-- The `user_ids` entries as the amended claim words them: a lone
non-empty string becomes a one-element list, a lone empty string
contributes nothing. -/
def amendedEntries : Option StrOrList → List String
  | some (.str s) => if s = "" then [] else [s]
  | some (.list xs) => xs
  | none => []

/-- The normalization as the amended claim words it: empty strings are
treated as absent — a lone empty-string `user_ids` contributes nothing,
and `user_id` is prepended at index 0 iff it is provided, non-empty,
and not already among the entries. -/
def amendedNormalizeUserIds (p : UserIdParams) : List String :=
  match p.user_id with
  | some u =>
      if u = "" ∨ u ∈ amendedEntries p.user_ids then amendedEntries p.user_ids
      else u :: amendedEntries p.user_ids
  | none => amendedEntries p.user_ids

/-- Model of `normalizeSingleUserId` (src/feed.ts): prefer a truthy `user_id`,
else the first entry of `user_ids`, else throw the missing-parameter
error for `fieldName`. -/
def normalizeSingleUserId (p : UserIdParams) (fieldName : String := "user_id") :
    Except String String :=
  match p.user_id with
  | some u =>
      if u ≠ "" then .ok u
      else fallback p fieldName
  | none => fallback p fieldName
where
  /-- The fall-through to `user_ids` and the final throw. -/
  fallback (p : UserIdParams) (fieldName : String) : Except String String :=
    match p.user_ids with
    | some (.str s) =>
        if s ≠ "" then .ok s
        else .error ("Missing required parameter: " ++ fieldName)
    | some (.list (x :: _)) => .ok x
    | some (.list []) => .error ("Missing required parameter: " ++ fieldName)
    | none => .error ("Missing required parameter: " ++ fieldName)

-- ===================================================================
-- Generic vendor response shape
-- ===================================================================

/-- A vendor SDK response: a numeric `code`, an optional `msg`, and a
payload (the fields of `res.data` the operation reads), present only
when `data` is. -/
structure ApiResp (α : Type) where
  code : Int
  msg : Option String := none
  data : Option α := none
  deriving Repr, DecidableEq

/-- The error construction shared by the calendar and meeting modules for a nonzero code:
`` throw new Error(`${res.msg ?? "Unknown error"} (code: ${res.code})`) ``. -/
def codeError (code : Int) (msg : Option String) : String :=
  (msg.getD "Unknown error") ++ " (code: " ++ toString code ++ ")"

-- ===================================================================
-- src/calendar.ts — queryFreebusy
-- ===================================================================

/-- A remote call issued by `queryFreebusy`: either the batch freebusy
endpoint with the merged user-id list, or the list endpoint with an
optional single user id and optional room id. -/
inductive FreebusyCall where
  | batch (user_ids : List String)
  | list (user_id : Option String) (room_id : Option String)
  deriving Repr, DecidableEq

/-- Result of `queryFreebusy`: `{ freebusy_lists }` from the batch
endpoint or `{ freebusy_list }` from the list endpoint (items left
opaque as strings). -/
inductive FreebusyResult where
  | lists (freebusy_lists : List String)
  | single (freebusy_list : List String)
  deriving Repr, DecidableEq

/-- The merged user-id list of `queryFreebusy`:
`const allUserIds = [...(userIds ?? [])];`
`if (userId && !allUserIds.includes(userId)) allUserIds.unshift(userId);`
(`userId &&` is a truthiness test: an empty string is not prepended). -/
def mergedUserIds (userId : Option String) (userIds : Option (List String)) :
    List String :=
  match userId with
  | some u => if u ≠ "" ∧ u ∉ (userIds.getD []) then u :: userIds.getD [] else userIds.getD []
  | none => userIds.getD []

/-- Model of `queryFreebusy` (src/calendar.ts lines 346–394).  `batchResp` and
`listResp` are the network oracle for the two endpoints; the returned
list records every remote call issued, in order. -/
def queryFreebusy (userId : Option String) (userIds : Option (List String))
    (roomId : Option String)
    (batchResp listResp : ApiResp (List String)) :
    Except String FreebusyResult × List FreebusyCall :=
  let allUserIds := mergedUserIds userId userIds
  if allUserIds.length > 1 then
    -- Multiple users → batch API
    if batchResp.code ≠ 0 then
      (.error (codeError batchResp.code batchResp.msg), [.batch allUserIds])
    else
      (.ok (.lists ((batchResp.data.getD []))), [.batch allUserIds])
  else
    -- Single user or room → list API
    let singleUserId := allUserIds.head?
    if ¬ strTruthy singleUserId ∧ ¬ strTruthy roomId then
      (.error "Must provide user_id, user_ids, or room_id", [])
    else
      let call := FreebusyCall.list
        (if strTruthy singleUserId then singleUserId else none)
        (if strTruthy roomId then roomId else none)
      if listResp.code ≠ 0 then
        (.error (codeError listResp.code listResp.msg), [call])
      else
        (.ok (.single (listResp.data.getD [])), [call])

/-- The merged user-id list as the claim words it: "user_ids plus a
singular user_id prepended if not already present" (no empty-string
exception). -/
def specMergedUserIds (userId : Option String) (userIds : Option (List String)) :
    List String :=
  match userId with
  | some u => if u ∉ (userIds.getD []) then u :: userIds.getD [] else userIds.getD []
  | none => userIds.getD []

-- ===================================================================
-- src/calendar.ts — createEvent and the simple one-call operations
-- ===================================================================

/-- Attendee input of `create_event`/`add_attendees`
(calendar.ts `AttendeeInput`). -/
structure AttendeeInput where
  type : String
  user_id : Option String := none
  chat_id : Option String := none
  room_id : Option String := none
  third_party_email : Option String := none
  is_optional : Option Bool := none
  deriving Repr, DecidableEq

/-- Event object of the calendar-event create response (the field
createEvent reads). -/
structure EventData where
  event_id : Option String := none
  deriving Repr, DecidableEq

/-- Payload of the attendee-create response (the field createEvent
reads: `res.data?.attendees`). -/
structure AttendeeData where
  attendees : Option (List String) := none
  deriving Repr, DecidableEq

/-- Payload of the event-create response (`res.data?.event`). -/
structure CreateEventData where
  event : Option EventData := none
  deriving Repr, DecidableEq

/-- A remote call issued by `createEvent`: the calendar-event create,
or the follow-up attendee create. -/
inductive CreateEventCall where
  | eventCreate (summary : String) (attendeeCount : Nat)
  | attendeeCreate (event_id : String) (attendeeCount : Nat)
  deriving Repr, DecidableEq

/-- Result of `createEvent` (the three return shapes of
calendar.ts lines 194–218). -/
inductive CreateEventResult where
  | plain (event : Option EventData)
  | warning (event : Option EventData) (warning : String)
  | withAttendees (event : Option EventData) (attendees_added : Nat)
  deriving Repr, DecidableEq

/-- Model of `createEvent` (src/calendar.ts lines 156–218): one remote
calendar-event create, then — only when the response carries an event id
and attendees were supplied — a second remote attendee create, whose
failure is reported as a warning rather than thrown. -/
def createEvent (summary : String) (attendees : Option (List AttendeeInput))
    (createResp : ApiResp CreateEventData) (attendeeResp : ApiResp AttendeeData) :
    Except String CreateEventResult × List CreateEventCall :=
  let attendeeCount := (attendees.getD []).length
  let firstCall := CreateEventCall.eventCreate summary attendeeCount
  if createResp.code ≠ 0 then
    (.error (codeError createResp.code createResp.msg), [firstCall])
  else
    let event := createResp.data.bind CreateEventData.event
    -- if (eventId && options?.attendees && options.attendees.length > 0)
    match event.bind EventData.event_id, attendees with
    | some eventId, some atts =>
        if eventId ≠ "" ∧ atts.length > 0 then
          let secondCall := CreateEventCall.attendeeCreate eventId atts.length
          if attendeeResp.code ≠ 0 then
            (.ok (.warning event
              ("Event created but failed to add attendees: " ++ attendeeResp.msg.getD "")),
             [firstCall, secondCall])
          else
            (.ok (.withAttendees event
              ((attendeeResp.data.bind AttendeeData.attendees).getD []).length),
             [firstCall, secondCall])
        else (.ok (.plain event), [firstCall])
    | _, _ => (.ok (.plain event), [firstCall])

/-- Payload of the calendar list response (the fields listCalendars
reads, items left opaque). -/
structure CalendarListData where
  calendar_list : Option (List String) := none
  page_token : Option String := none
  sync_token : Option String := none
  has_more : Option Bool := none
  deriving Repr, DecidableEq

/-- Result of `listCalendars`. -/
structure CalendarListResult where
  calendars : List String
  page_token : Option String
  sync_token : Option String
  has_more : Option Bool
  deriving Repr, DecidableEq

/-- Model of `listCalendars` (src/calendar.ts lines 19–40): one remote
`calendar.list` call; a nonzero code throws the msg/code error.  The
returned `Nat` counts the remote calls issued. -/
def listCalendars (resp : ApiResp CalendarListData) :
    Except String CalendarListResult × Nat :=
  if resp.code ≠ 0 then
    (.error (codeError resp.code resp.msg), 1)
  else
    (.ok { calendars := (resp.data.bind CalendarListData.calendar_list).getD []
           page_token := resp.data.bind CalendarListData.page_token
           sync_token := resp.data.bind CalendarListData.sync_token
           has_more := resp.data.bind CalendarListData.has_more }, 1)

/-- Payload of the `vc.meeting.get` response (the field getMeeting
reads: `res.data?.meeting`, left opaque). -/
structure MeetingData where
  meeting : Option String := none
  deriving Repr, DecidableEq

/-- Model of `getMeeting` (src/meeting.ts lines 689–705): one remote
`vc.meeting.get` call; a nonzero code throws the msg/code error. -/
def getMeeting (resp : ApiResp MeetingData) :
    Except String (Option String) × Nat :=
  if resp.code ≠ 0 then
    (.error (codeError resp.code resp.msg), 1)
  else
    (.ok (resp.data.bind MeetingData.meeting), 1)

-- ===================================================================
-- JSON envelope (the `json` helper repeated in each module)
-- ===================================================================

/-- A JSON value, the shape of the `details` payload of a tool result. -/
inductive JVal where
  | null
  | bool (b : Bool)
  | num (n : Int)
  | str (s : String)
  | arr (xs : List JVal)
  | obj (fields : List (String × JVal))
  deriving Repr

/-- The envelope every tool `execute` returns:
`{ content: [{ type: "text", text: JSON.stringify(data, null, 2) }], details: data }`.
Content items are (type, text) pairs. -/
structure ToolEnvelope where
  content : List (String × String)
  details : JVal
  deriving Repr

/-- The `json` helper (calendar.ts lines 10–15, repeated verbatim in
feed.ts and vc-events.ts).  `stringify` abstracts
`(d) => JSON.stringify(d, null, 2)`. -/
def json (stringify : JVal → String) (data : JVal) : ToolEnvelope :=
  { content := [("text", stringify data)], details := data }

def jOptStr : Option String → JVal
  | some s => .str s
  | none => .null

def jOptBool : Option Bool → JVal
  | some b => .bool b
  | none => .null

def jStrList : Option (List String) → JVal
  | some xs => .arr (xs.map JVal.str)
  | none => .null

-- ===================================================================
-- src/vc-events.ts — the urgent-message tool
-- ===================================================================

/-- The `user_id_type` union of the schemas. -/
inductive UserIdType where
  | open_id
  | user_id
  | union_id
  deriving Repr, DecidableEq

def UserIdType.asString : UserIdType → String
  | .open_id => "open_id"
  | .user_id => "user_id"
  | .union_id => "union_id"

/-- The three urgent delivery channels. -/
inductive UrgentType where
  | app
  | sms
  | phone
  deriving Repr, DecidableEq

/-- The four actions of the `feishu_urgent` tool. -/
inductive UrgentAction where
  | urgent
  | urgent_app
  | urgent_sms
  | urgent_phone
  deriving Repr, DecidableEq

/-- Parameters of the `feishu_urgent` tool (urgent-schema.ts;
`urgent_type` is only present on the `urgent` action). -/
structure FeishuUrgentParams where
  action : UrgentAction
  message_id : String
  urgent_type : Option UrgentType := none
  user_id : Option String := none
  user_ids : Option StrOrList := none
  user_id_type : Option UserIdType := none
  deriving Repr, DecidableEq

/-- Payload of the urgent responses (`res.data?.invalid_user_id_list`). -/
structure UrgentData where
  invalid_user_id_list : Option (List String) := none
  deriving Repr, DecidableEq

/-- A remote urgent call: which of the three endpoints was invoked,
with the path/params/data the source sends. -/
structure UrgentCall where
  channel : UrgentType
  message_id : String
  user_id_list : List String
  user_id_type : UserIdType
  deriving Repr, DecidableEq

/-- Result shape of the urgent helpers (`UrgentResult` in vc-events.ts). -/
structure UrgentResult where
  success : Bool
  invalid_user_id_list : Option (List String) := none
  deriving Repr, DecidableEq

def UrgentResult.toJson (r : UrgentResult) : JVal :=
  .obj [("success", .bool r.success),
        ("invalid_user_id_list", jStrList r.invalid_user_id_list)]

/-- Model of `urgentApp` (vc-events.ts): one call to `im.message.urgentApp`;
a nonzero code throws ``res.msg ?? `Error code: ${res.code}` ``. -/
def urgentApp (message_id : String) (user_ids : List String)
    (user_id_type : Option UserIdType) (resp : ApiResp UrgentData) :
    Except String UrgentResult × List UrgentCall :=
  let call : UrgentCall :=
    ⟨.app, message_id, user_ids, user_id_type.getD .open_id⟩
  if resp.code ≠ 0 then
    (.error (resp.msg.getD ("Error code: " ++ toString resp.code)), [call])
  else
    (.ok ⟨true, resp.data.bind UrgentData.invalid_user_id_list⟩, [call])

/-- Model of `urgentSms` (vc-events.ts): one call to `im.message.urgentSms`. -/
def urgentSms (message_id : String) (user_ids : List String)
    (user_id_type : Option UserIdType) (resp : ApiResp UrgentData) :
    Except String UrgentResult × List UrgentCall :=
  let call : UrgentCall :=
    ⟨.sms, message_id, user_ids, user_id_type.getD .open_id⟩
  if resp.code ≠ 0 then
    (.error (resp.msg.getD ("Error code: " ++ toString resp.code)), [call])
  else
    (.ok ⟨true, resp.data.bind UrgentData.invalid_user_id_list⟩, [call])

/-- Model of `urgentPhone` (vc-events.ts): one call to `im.message.urgentPhone`. -/
def urgentPhone (message_id : String) (user_ids : List String)
    (user_id_type : Option UserIdType) (resp : ApiResp UrgentData) :
    Except String UrgentResult × List UrgentCall :=
  let call : UrgentCall :=
    ⟨.phone, message_id, user_ids, user_id_type.getD .open_id⟩
  if resp.code ≠ 0 then
    (.error (resp.msg.getD ("Error code: " ++ toString resp.code)), [call])
  else
    (.ok ⟨true, resp.data.bind UrgentData.invalid_user_id_list⟩, [call])

/-- Model of `const validIdTypes = ["open_id", "user_id", "union_id"]`. -/
def validIdTypes : List UserIdType := [.open_id, .user_id, .union_id]

def liftUrgent (r : Except String UrgentResult × List UrgentCall) :
    Except String JVal × List UrgentCall :=
  (r.1.map UrgentResult.toJson, r.2)

/-- The `try` block of the `feishu_urgent` `execute` (vc-events.ts):
message-id validation, user-id normalization and bounds, id-type
validation, then the action/urgent_type dispatch.  The `Except.error`
outcomes are the thrown errors the surrounding `catch` will wrap. -/
def urgentBody (p : FeishuUrgentParams)
    (appResp smsResp phoneResp : ApiResp UrgentData) :
    Except String JVal × List UrgentCall :=
  if p.message_id = "" then
    (.error "Missing required parameter: message_id", [])
  else if ¬ strStartsWith p.message_id "om_" then
    (.error ("Invalid message_id format: " ++ p.message_id ++
      ". Expected format: om_xxx. Batch messages (bm_xxx) are not supported."), [])
  else
    let userIds := normalizeUserIds ⟨p.user_id, p.user_ids⟩
    if userIds.length = 0 then
      (.error "Missing required parameter: user_ids (provide user_id or user_ids)", [])
    else if userIds.length > 200 then
      (.error "Too many users: maximum 200 users per request", [])
    else
      let userIdType := p.user_id_type.getD .open_id
      if userIdType ∉ validIdTypes then
        (.error ("Invalid user_id_type: " ++
          (match p.user_id_type with
           | some t => t.asString
           | none => "undefined") ++ ". Valid values: open_id, user_id, union_id"), [])
      else
        match p.action with
        | .urgent =>
            match p.urgent_type with
            | some .app => liftUrgent (urgentApp p.message_id userIds (some userIdType) appResp)
            | some .sms => liftUrgent (urgentSms p.message_id userIds (some userIdType) smsResp)
            | some .phone => liftUrgent (urgentPhone p.message_id userIds (some userIdType) phoneResp)
            | none => (.ok (.obj [("error", .str "Unknown urgent_type: undefined")]), [])
        | .urgent_app => liftUrgent (urgentApp p.message_id userIds (some userIdType) appResp)
        | .urgent_sms => liftUrgent (urgentSms p.message_id userIds (some userIdType) smsResp)
        | .urgent_phone => liftUrgent (urgentPhone p.message_id userIds (some userIdType) phoneResp)

/-- The `feishu_urgent` `execute` (vc-events.ts lines 585–655): runs the
`try` block, wraps the result in the `json` envelope, and maps any
thrown error to the `{ error: message }` envelope.  Total: never
throws. -/
def executeUrgent (stringify : JVal → String) (p : FeishuUrgentParams)
    (appResp smsResp phoneResp : ApiResp UrgentData) :
    ToolEnvelope × List UrgentCall :=
  match urgentBody p appResp smsResp phoneResp with
  | (.ok v, calls) => (json stringify v, calls)
  | (.error m, calls) => (json stringify (.obj [("error", .str m)]), calls)

-- ===================================================================
-- src/feed.ts — the feed-card tool
-- ===================================================================

/-- The six actions of the `feishu_feed` tool. -/
inductive FeedAction where
  | create_app_feed_card
  | update_app_feed_card
  | delete_app_feed_card
  | set_bot_time_sensitive
  | set_chat_time_sensitive
  | update_chat_button
  deriving Repr, DecidableEq

/-- Parameters of the `feishu_feed` tool (feed-schema.ts; the card
content fields — title, buttons, labels — do not influence control
flow and are left out of the model). -/
structure FeishuFeedParams where
  action : FeedAction
  user_id : Option String := none
  user_ids : Option StrOrList := none
  biz_id : Option String := none
  chat_id : Option String := none
  time_sensitive : Option Bool := none
  deriving Repr, DecidableEq

/-- A remote call issued by a feed operation (one constructor per SDK
endpoint; `botTimeSentive` is the spelling used by the SDK). -/
inductive FeedCall where
  | appFeedCardCreate (user_ids : List String)
  | appFeedCardBatchUpdate (user_id : String)
  | appFeedCardBatchDelete (user_id : String)
  | botTimeSentive (user_ids : List String)
  | feedCardPatch (chat_id : Option String) (user_ids : List String)
  | chatButtonUpdate (chat_id : Option String)
  deriving Repr, DecidableEq

/-- Payload of the app-feed-card create response. -/
structure FeedCreateData where
  biz_id : Option String := none
  failed_cards : Option (List String) := none
  deriving Repr, DecidableEq

/-- Payload of the batch update/delete responses. -/
structure FeedBatchData where
  failed_cards : Option (List String) := none
  deriving Repr, DecidableEq

/-- Payload of the pin/button responses. -/
structure FeedPinData where
  failed_user_reasons : Option (List String) := none
  deriving Repr, DecidableEq

/-- Model of `createAppFeedCard` (feed.ts lines 119–156): normalize user ids,
reject an empty list and more than 20 users before the single
`im.v2.appFeedCard.create` call; a nonzero code throws `res.msg`. -/
def createAppFeedCard (p : FeishuFeedParams) (resp : ApiResp FeedCreateData) :
    Except String JVal × List FeedCall :=
  let userIds := normalizeUserIds ⟨p.user_id, p.user_ids⟩
  if userIds.length = 0 then
    (.error "Missing required parameter: user_ids (provide user_id or user_ids)", [])
  else if userIds.length > 20 then
    (.error "Too many users: maximum 20 users per request", [])
  else if resp.code ≠ 0 then
    (.error (resp.msg.getD ""), [.appFeedCardCreate userIds])
  else
    (.ok (.obj [("biz_id", jOptStr (resp.data.bind FeedCreateData.biz_id)),
                ("failed_cards", jStrList (resp.data.bind FeedCreateData.failed_cards))]),
     [.appFeedCardCreate userIds])

/-- Model of `updateAppFeedCard` (feed.ts): resolve the single user id, then one
`im.v2.appFeedCardBatch.update` call. -/
def updateAppFeedCard (p : FeishuFeedParams) (resp : ApiResp FeedBatchData) :
    Except String JVal × List FeedCall :=
  match normalizeSingleUserId ⟨p.user_id, p.user_ids⟩ "user_id" with
  | .error m => (.error m, [])
  | .ok userId =>
      if resp.code ≠ 0 then
        (.error (resp.msg.getD ""), [.appFeedCardBatchUpdate userId])
      else
        (.ok (.obj [("success", .bool true),
                    ("failed_cards", jStrList (resp.data.bind FeedBatchData.failed_cards))]),
         [.appFeedCardBatchUpdate userId])

/-- Model of `deleteAppFeedCard` (feed.ts): resolve the single user id, then one
`im.v2.appFeedCardBatch.delete` call. -/
def deleteAppFeedCard (p : FeishuFeedParams) (resp : ApiResp FeedBatchData) :
    Except String JVal × List FeedCall :=
  match normalizeSingleUserId ⟨p.user_id, p.user_ids⟩ "user_id" with
  | .error m => (.error m, [])
  | .ok userId =>
      if resp.code ≠ 0 then
        (.error (resp.msg.getD ""), [.appFeedCardBatchDelete userId])
      else
        (.ok (.obj [("success", .bool true),
                    ("failed_cards", jStrList (resp.data.bind FeedBatchData.failed_cards))]),
         [.appFeedCardBatchDelete userId])

/-- Model of `setBotTimeSensitive` (feed.ts lines 221–247): normalize user ids,
reject an empty list and more than 50 users before the single
`im.v2.feedCard.botTimeSentive` call. -/
def setBotTimeSensitive (p : FeishuFeedParams) (resp : ApiResp FeedPinData) :
    Except String JVal × List FeedCall :=
  let userIds := normalizeUserIds ⟨p.user_id, p.user_ids⟩
  if userIds.length = 0 then
    (.error "Missing required parameter: user_ids (provide user_id or user_ids)", [])
  else if userIds.length > 50 then
    (.error "Too many users: maximum 50 users per request", [])
  else if resp.code ≠ 0 then
    (.error (resp.msg.getD ""), [.botTimeSentive userIds])
  else
    (.ok (.obj [("success", .bool true),
                ("failed_user_reasons", jStrList (resp.data.bind FeedPinData.failed_user_reasons))]),
     [.botTimeSentive userIds])

/-- Model of `setChatTimeSensitive` (feed.ts): normalize user ids, reject an
empty list (no upper bound in the source), then one
`im.v2.feedCard.patch` call. -/
def setChatTimeSensitive (p : FeishuFeedParams) (resp : ApiResp FeedPinData) :
    Except String JVal × List FeedCall :=
  let userIds := normalizeUserIds ⟨p.user_id, p.user_ids⟩
  if userIds.length = 0 then
    (.error "Missing required parameter: user_ids (provide user_id or user_ids)", [])
  else if resp.code ≠ 0 then
    (.error (resp.msg.getD ""), [.feedCardPatch p.chat_id userIds])
  else
    (.ok (.obj [("success", .bool true),
                ("failed_user_reasons", jStrList (resp.data.bind FeedPinData.failed_user_reasons))]),
     [.feedCardPatch p.chat_id userIds])

/-- Model of `updateChatButton` (feed.ts): one `im.v2.chatButton.update` call
with no local validation. -/
def updateChatButton (p : FeishuFeedParams) (resp : ApiResp FeedPinData) :
    Except String JVal × List FeedCall :=
  if resp.code ≠ 0 then
    (.error (resp.msg.getD ""), [.chatButtonUpdate p.chat_id])
  else
    (.ok (.obj [("success", .bool true),
                ("failed_user_reasons", jStrList (resp.data.bind FeedPinData.failed_user_reasons))]),
     [.chatButtonUpdate p.chat_id])

/-- The network oracle for the `feishu_feed` tool: one response per
endpoint the dispatched action might call. -/
structure FeedNet where
  createResp : ApiResp FeedCreateData := { code := 0 }
  updateResp : ApiResp FeedBatchData := { code := 0 }
  deleteResp : ApiResp FeedBatchData := { code := 0 }
  botPinResp : ApiResp FeedPinData := { code := 0 }
  chatPinResp : ApiResp FeedPinData := { code := 0 }
  buttonResp : ApiResp FeedPinData := { code := 0 }
  deriving Repr, DecidableEq

/-- The `try` block of the `feishu_feed` `execute` (feed.ts lines
322–339): the switch over the six actions. -/
def feedBody (p : FeishuFeedParams) (net : FeedNet) :
    Except String JVal × List FeedCall :=
  match p.action with
  | .create_app_feed_card => createAppFeedCard p net.createResp
  | .update_app_feed_card => updateAppFeedCard p net.updateResp
  | .delete_app_feed_card => deleteAppFeedCard p net.deleteResp
  | .set_bot_time_sensitive => setBotTimeSensitive p net.botPinResp
  | .set_chat_time_sensitive => setChatTimeSensitive p net.chatPinResp
  | .update_chat_button => updateChatButton p net.buttonResp

/-- The `feishu_feed` `execute` (feed.ts lines 318–347): runs the
switch, wraps the result in the `json` envelope, and maps any thrown
error to the `{ error: message }` envelope.  Total: never throws. -/
def executeFeed (stringify : JVal → String) (p : FeishuFeedParams)
    (net : FeedNet) : ToolEnvelope × List FeedCall :=
  match feedBody p net with
  | (.ok v, calls) => (json stringify v, calls)
  | (.error m, calls) => (json stringify (.obj [("error", .str m)]), calls)

-- ===================================================================
-- src/calendar.ts — execute (restricted to the modelled actions)
-- ===================================================================

/-- The modelled subset of the `feishu_calendar` actions. -/
inductive CalendarAction where
  | list_calendars
  | create_event
  | query_freebusy
  deriving Repr, DecidableEq

/-- The modelled subset of the `feishu_calendar` parameters. -/
structure FeishuCalendarParams where
  action : CalendarAction
  summary : Option String := none
  attendees : Option (List AttendeeInput) := none
  user_id : Option String := none
  user_ids : Option (List String) := none
  room_id : Option String := none
  deriving Repr, DecidableEq

/-- A remote call issued by a modelled calendar action. -/
inductive CalendarCall where
  | calendarList
  | ev (c : CreateEventCall)
  | fb (c : FreebusyCall)
  deriving Repr, DecidableEq

/-- The network oracle for the modelled calendar actions. -/
structure CalendarNet where
  listResp : ApiResp CalendarListData := { code := 0 }
  createResp : ApiResp CreateEventData := { code := 0 }
  attendeeResp : ApiResp AttendeeData := { code := 0 }
  fbBatchResp : ApiResp (List String) := { code := 0 }
  fbListResp : ApiResp (List String) := { code := 0 }
  deriving Repr, DecidableEq

def CalendarListResult.toJson (r : CalendarListResult) : JVal :=
  .obj [("calendars", .arr (r.calendars.map JVal.str)),
        ("page_token", jOptStr r.page_token),
        ("sync_token", jOptStr r.sync_token),
        ("has_more", jOptBool r.has_more)]

def eventJson : Option EventData → JVal
  | some e => .obj [("event_id", jOptStr e.event_id)]
  | none => .null

def CreateEventResult.toJson : CreateEventResult → JVal
  | .plain event => .obj [("event", eventJson event)]
  | .warning event w => .obj [("event", eventJson event), ("warning", .str w)]
  | .withAttendees event n =>
      .obj [("event", eventJson event), ("attendees_added", .num n)]

def FreebusyResult.toJson : FreebusyResult → JVal
  | .lists xs => .obj [("freebusy_lists", .arr (xs.map JVal.str))]
  | .single xs => .obj [("freebusy_list", .arr (xs.map JVal.str))]

/-- The `try` block of the `feishu_calendar` `execute` (calendar.ts
lines 436–566), restricted to the modelled actions. -/
def calendarBody (p : FeishuCalendarParams) (net : CalendarNet) :
    Except String JVal × List CalendarCall :=
  match p.action with
  | .list_calendars =>
      let (r, n) := listCalendars net.listResp
      (r.map CalendarListResult.toJson, List.replicate n .calendarList)
  | .create_event =>
      let (r, calls) :=
        createEvent (p.summary.getD "") p.attendees net.createResp net.attendeeResp
      (r.map CreateEventResult.toJson, calls.map CalendarCall.ev)
  | .query_freebusy =>
      let (r, calls) :=
        queryFreebusy p.user_id p.user_ids p.room_id net.fbBatchResp net.fbListResp
      (r.map FreebusyResult.toJson, calls.map CalendarCall.fb)

/-- The `feishu_calendar` `execute` (calendar.ts lines 436–571): runs
the switch, wraps the result in the `json` envelope, and maps any
thrown error to the `{ error: message }` envelope (lines 569–571).
Total: never throws. -/
def executeCalendar (stringify : JVal → String) (p : FeishuCalendarParams)
    (net : CalendarNet) : ToolEnvelope × List CalendarCall :=
  match calendarBody p net with
  | (.ok v, calls) => (json stringify v, calls)
  | (.error m, calls) => (json stringify (.obj [("error", .str m)]), calls)

-- ===================================================================
-- Theorems
-- ===================================================================

/-- C5: probeFeishu validates credentials before anything else — for
every input where creds is absent or its appId or appSecret is empty,
it returns the fixed missing-credentials failure, performs no remote
call (call count 0), and leaves the cache untouched (and, the result
being a constant, reads nothing from it). -/
theorem probeFeishu_missing_credentials (creds : Option FeishuClientCredentials)
    (cache : ProbeCache) (now ttl : Nat) (net : ProbeNet)
    (h : creds = none ∨ ∃ c, creds = some c ∧ (c.appId = "" ∨ c.appSecret = "")) :
    probeFeishu creds cache now ttl net =
      ({ ok := false, error := some "missing credentials (appId, appSecret)" }, cache, 0) := by
  rcases h with h | ⟨c, rfl, hc⟩
  · subst h; rfl
  · simp only [probeFeishu, if_pos hc]

/-- Witness for C5 at the concrete credentials `{ appId := "", appSecret := "sec" }`. -/
theorem probeFeishu_missing_credentials_witness :
    probeFeishu (some ⟨"", "sec"⟩) {} 0 100 (.exn "boom") =
      ({ ok := false, error := some "missing credentials (appId, appSecret)" }, {}, 0) :=
  probeFeishu_missing_credentials (some ⟨"", "sec"⟩) {} 0 100 (.exn "boom")
    (Or.inr ⟨⟨"", "sec"⟩, rfl, Or.inl rfl⟩)

/-- C1: probeFeishu memoizes the probe result keyed by the appId of the account
with a TTL — with non-empty appId and appSecret, a cache hit for
that appId is returned with no remote call and no cache write, and a
cache miss performs the remote bot-info call (call count 1) and stores
the produced result in the cache under that appId. -/
theorem probeFeishu_memoized_by_appId (c : FeishuClientCredentials)
    (cache : ProbeCache) (now ttl : Nat) (net : ProbeNet)
    (h1 : c.appId ≠ "") (h2 : c.appSecret ≠ "") :
    (∀ r, getCachedProbeResult cache c.appId now = some r →
        probeFeishu (some c) cache now ttl net = (r, cache, 0)) ∧
    (getCachedProbeResult cache c.appId now = none →
        probeFeishu (some c) cache now ttl net =
          (probeResultOfNet c.appId net,
           setCachedProbeResult cache (probeResultOfNet c.appId net) c.appId now ttl, 1)) := by
  constructor
  · intro r hr
    simp [probeFeishu, h1, h2, hr]
  · intro hmiss
    simp [probeFeishu, h1, h2, hmiss]

/-- Witness for C1: a concrete cache hit returned without a remote
call, and a concrete cache miss stored under the appId. -/
theorem probeFeishu_memoized_by_appId_witness :
    probeFeishu (some ⟨"app", "sec"⟩)
        { entry := some ("app", { ok := true, appId := some "app" }, 50) } 10 100 (.exn "boom") =
      ({ ok := true, appId := some "app" },
       { entry := some ("app", { ok := true, appId := some "app" }, 50) }, 0) ∧
    probeFeishu (some ⟨"app", "sec"⟩) {} 10 100 (.exn "boom") =
      ({ ok := false, appId := some "app", error := some "boom" },
       { entry := some ("app", { ok := false, appId := some "app", error := some "boom" }, 110) }, 1) := by
  constructor
  · exact (probeFeishu_memoized_by_appId ⟨"app", "sec"⟩
      { entry := some ("app", { ok := true, appId := some "app" }, 50) } 10 100 (.exn "boom")
      (by decide) (by decide)).1 _ (by decide)
  · exact ((probeFeishu_memoized_by_appId ⟨"app", "sec"⟩ {} 10 100 (.exn "boom")
      (by decide) (by decide)).2 (by decide)).trans (by decide)

/-- C10: on a cache miss with valid credentials, probeFeishu memoizes
every outcome of the remote call — exactly one remote call is made, the
produced result (ok on code 0, failure on a nonzero code, failure on a
thrown exception) is stored in the cache under the appId, and any later
probe for the same appId before the TTL expires returns that stored
result with no remote call. -/
theorem probeFeishu_caches_all_outcomes (c : FeishuClientCredentials)
    (cache : ProbeCache) (now ttl : Nat)
    (h1 : c.appId ≠ "") (h2 : c.appSecret ≠ "")
    (hmiss : getCachedProbeResult cache c.appId now = none) :
    ∀ net : ProbeNet,
      (probeFeishu (some c) cache now ttl net).2.2 = 1 ∧
      (probeFeishu (some c) cache now ttl net).2.1 =
        setCachedProbeResult cache (probeFeishu (some c) cache now ttl net).1 c.appId now ttl ∧
      (∀ code msg bot dataBot, net = .resp code msg bot dataBot → code ≠ 0 →
        (probeFeishu (some c) cache now ttl net).1.ok = false) ∧
      (∀ m, net = .exn m → (probeFeishu (some c) cache now ttl net).1.ok = false) ∧
      (∀ code msg bot dataBot, net = .resp code msg bot dataBot → code = 0 →
        (probeFeishu (some c) cache now ttl net).1.ok = true) ∧
      (∀ now2, now2 < now + ttl → ∀ net2,
        probeFeishu (some c) ((probeFeishu (some c) cache now ttl net).2.1) now2 ttl net2 =
          ((probeFeishu (some c) cache now ttl net).1,
           (probeFeishu (some c) cache now ttl net).2.1, 0)) := by
  intro net
  have key : probeFeishu (some c) cache now ttl net =
      (probeResultOfNet c.appId net,
       setCachedProbeResult cache (probeResultOfNet c.appId net) c.appId now ttl, 1) := by
    simp [probeFeishu, h1, h2, hmiss]
  refine ⟨by rw [key], by rw [key], ?_, ?_, ?_, ?_⟩
  · intro code msg bot dataBot hnet hcode
    rw [key]; subst hnet
    simp [probeResultOfNet, hcode]
  · intro m hnet
    rw [key]; subst hnet
    simp [probeResultOfNet]
  · intro code msg bot dataBot hnet hcode
    rw [key]; subst hnet
    simp [probeResultOfNet, hcode]
  · intro now2 hnow2 net2
    rw [key]
    have hhit : getCachedProbeResult
        (setCachedProbeResult cache (probeResultOfNet c.appId net) c.appId now ttl)
        c.appId now2 = some (probeResultOfNet c.appId net) := by
      simp [getCachedProbeResult, setCachedProbeResult, hnow2]
    simp [probeFeishu, h1, h2, hhit]

/-- Witness for C10 at concrete inputs: a nonzero-code failure is
stored in the cache and returned again before the TTL expires. -/
theorem probeFeishu_caches_all_outcomes_witness :
    (probeFeishu (some ⟨"app", "sec"⟩) {} 10 100 (.resp 5 (some "bad") none none)).2.2 = 1 ∧
    (probeFeishu (some ⟨"app", "sec"⟩) {} 10 100 (.resp 5 (some "bad") none none)).1.ok = false ∧
    probeFeishu (some ⟨"app", "sec"⟩)
        ((probeFeishu (some ⟨"app", "sec"⟩) {} 10 100 (.resp 5 (some "bad") none none)).2.1)
        20 100 (.exn "other") =
      ((probeFeishu (some ⟨"app", "sec"⟩) {} 10 100 (.resp 5 (some "bad") none none)).1,
       (probeFeishu (some ⟨"app", "sec"⟩) {} 10 100 (.resp 5 (some "bad") none none)).2.1, 0) := by
  have h := probeFeishu_caches_all_outcomes ⟨"app", "sec"⟩ {} 10 100
    (by decide) (by decide) (by decide) (.resp 5 (some "bad") none none)
  exact ⟨h.1, h.2.2.1 5 (some "bad") none none rfl (by decide),
    h.2.2.2.2.2 20 (by decide) (.exn "other")⟩

/-- The two entry computations agree: `if (params.user_ids)` skipping a
falsy lone string is the same as dropping a lone empty string. -/
theorem userIdsEntries_eq_amendedEntries (o : Option StrOrList) :
    userIdsEntries o = amendedEntries o := by
  cases o with
  | none => rfl
  | some v =>
      cases v with
      | str s => by_cases hs : s = "" <;> simp [userIdsEntries, amendedEntries, hs]
      | list xs => rfl

/-- C4 counterexample: at `{ user_ids: "" }` (a lone string, which the
claim says becomes the one-element list `[""]`), `normalizeUserIds`
returns the empty list — the truthiness test in the source skips a falsy
lone string. -/
theorem normalizeUserIds_claim_counterexample :
    normalizeUserIds ⟨none, some (.str "")⟩ = [] ∧
    specNormalizeUserIds ⟨none, some (.str "")⟩ = [""] ∧
    normalizeUserIds ⟨none, some (.str "")⟩ ≠
      specNormalizeUserIds ⟨none, some (.str "")⟩ := by decide

/-- C4 amended: `normalizeUserIds` merges the singular and plural
user-id fields into one canonical list with empty strings treated as
absent — the `user_ids` entries in order (a lone non-empty string
becoming a one-element list, a lone empty string contributing nothing),
with `user_id` prepended at index 0 iff it is provided, non-empty, and
not already among those entries. -/
theorem normalizeUserIds_amended_eq (p : UserIdParams) :
    normalizeUserIds p = amendedNormalizeUserIds p := by
  obtain ⟨uid, uids⟩ := p
  cases uid with
  | none =>
      simpa [normalizeUserIds, amendedNormalizeUserIds] using
        userIdsEntries_eq_amendedEntries uids
  | some u =>
      simp only [normalizeUserIds, amendedNormalizeUserIds,
        userIdsEntries_eq_amendedEntries]
      by_cases hu : u = ""
      · simp [hu]
      · by_cases hm : u ∈ amendedEntries uids
        · simp [hu, hm]
        · simp [hu, hm]

/-- C3 counterexample: at `user_id = ""`, `user_ids = ["a"]`, no room,
the merged list of the claim ("user_ids plus a singular user_id prepended if
not already present") has two entries, so the claim requires the batch
endpoint; the truthiness test in the source does not prepend the empty
string and calls the list endpoint instead. -/
theorem queryFreebusy_claim_counterexample :
    (specMergedUserIds (some "") (some ["a"])).length > 1 ∧
    (queryFreebusy (some "") (some ["a"]) none { code := 0 } { code := 0 }).2 =
      [.list (some "a") none] := by decide

/-- C3 amended: queryFreebusy dispatches on the cardinality of the
merged user-id list, where empty-string ids are treated as absent (only
a non-empty user_id is prepended, an empty sole entry or empty room_id
counts as missing): more than one merged entry calls the batch endpoint
and yields the freebusy_lists field; a non-empty sole entry or a
present room_id calls the list endpoint and yields the freebusy_list
field; otherwise the operation throws
"Must provide user_id, user_ids, or room_id" with no remote call. -/
theorem queryFreebusy_dispatch (userId : Option String)
    (userIds : Option (List String)) (roomId : Option String)
    (batchResp listResp : ApiResp (List String)) :
    ((mergedUserIds userId userIds).length > 1 →
      (queryFreebusy userId userIds roomId batchResp listResp).2 =
        [.batch (mergedUserIds userId userIds)] ∧
      (batchResp.code = 0 →
        (queryFreebusy userId userIds roomId batchResp listResp).1 =
          .ok (.lists (batchResp.data.getD [])))) ∧
    ((mergedUserIds userId userIds).length ≤ 1 →
      (strTruthy (mergedUserIds userId userIds).head? ∨ strTruthy roomId) →
      (queryFreebusy userId userIds roomId batchResp listResp).2 =
        [.list (if strTruthy (mergedUserIds userId userIds).head?
                then (mergedUserIds userId userIds).head? else none)
               (if strTruthy roomId then roomId else none)] ∧
      (listResp.code = 0 →
        (queryFreebusy userId userIds roomId batchResp listResp).1 =
          .ok (.single (listResp.data.getD [])))) ∧
    ((mergedUserIds userId userIds).length ≤ 1 →
      ¬ strTruthy (mergedUserIds userId userIds).head? → ¬ strTruthy roomId →
      queryFreebusy userId userIds roomId batchResp listResp =
        (.error "Must provide user_id, user_ids, or room_id", [])) := by
  refine ⟨?_, ?_, ?_⟩
  · intro hlen
    constructor
    · by_cases hc : batchResp.code = 0 <;>
        simp [queryFreebusy, hlen, hc]
    · intro hc
      simp [queryFreebusy, hlen, hc]
  · intro hlen htruthy
    have hgt : ¬ (mergedUserIds userId userIds).length > 1 := by omega
    have hguard : ¬ (strTruthy (mergedUserIds userId userIds).head? = false ∧
        strTruthy roomId = false) := by
      rcases htruthy with h | h
      · intro hcon; rw [h] at hcon; exact absurd hcon.1 (by simp)
      · intro hcon; rw [h] at hcon; exact absurd hcon.2 (by simp)
    constructor
    · by_cases hc : listResp.code = 0 <;>
        simp [queryFreebusy, hgt, hguard, hc]
    · intro hc
      simp [queryFreebusy, hgt, hguard, hc]
  · intro hlen hu hr
    have hgt : ¬ (mergedUserIds userId userIds).length > 1 := by omega
    simp [queryFreebusy, hgt, hu, hr]

/-- Witness for C3 at concrete inputs: two users hit the batch
endpoint, one user hits the list endpoint, and no user and no room
throws without a call. -/
theorem queryFreebusy_dispatch_witness :
    ((queryFreebusy none (some ["a", "b"]) none { code := 0 } { code := 0 }).2 =
        [.batch ["a", "b"]] ∧
      (queryFreebusy none (some ["a", "b"]) none { code := 0 } { code := 0 }).1 =
        .ok (.lists [])) ∧
    ((queryFreebusy (some "u") none none { code := 0 } { code := 0 }).2 =
        [.list (some "u") none] ∧
      (queryFreebusy (some "u") none none { code := 0 } { code := 0 }).1 =
        .ok (.single [])) ∧
    queryFreebusy none none none { code := 0 } { code := 0 } =
      (.error "Must provide user_id, user_ids, or room_id", []) := by
  refine ⟨?_, ?_, ?_⟩
  · have h := (queryFreebusy_dispatch none (some ["a", "b"]) none
      { code := 0 } { code := 0 }).1 (by decide)
    exact ⟨h.1, h.2 rfl⟩
  · have h := ((queryFreebusy_dispatch (some "u") none none
      { code := 0 } { code := 0 }).2.1 (by decide) (by decide))
    exact ⟨h.1.trans (by decide), h.2 rfl⟩
  · exact (queryFreebusy_dispatch none none none
      { code := 0 } { code := 0 }).2.2 (by decide) (by decide) (by decide)

/-- C2 counterexample: a concrete `create_event` invocation with one
attendee and a successful create response issues two remote calls (the
event create, then the attendee add), not the single call the claim
states. -/
theorem createEvent_claim_counterexample :
    (createEvent "standup" (some [{ type := "user", user_id := some "u" }])
        { code := 0, data := some { event := some { event_id := some "evt1" } } }
        { code := 0 }).2 =
      [.eventCreate "standup" 1, .attendeeCreate "evt1" 1] ∧
    (createEvent "standup" (some [{ type := "user", user_id := some "u" }])
        { code := 0, data := some { event := some { event_id := some "evt1" } } }
        { code := 0 }).2.length ≠ 1 := by decide

/-- C2 amended: each modelled tool action issues a single remote call
per invocation, except create_event, which issues a second attendee-add
call exactly when the create succeeds with a (non-empty) event id and a
non-empty attendee list was supplied — the full call trace of
createEvent, and the unit call counts of listCalendars and
getMeeting. -/
theorem remote_call_counts (summary : String) (attendees : Option (List AttendeeInput))
    (createResp : ApiResp CreateEventData) (attendeeResp : ApiResp AttendeeData)
    (listResp : ApiResp CalendarListData) (meetingResp : ApiResp MeetingData) :
    (listCalendars listResp).2 = 1 ∧
    (getMeeting meetingResp).2 = 1 ∧
    (createEvent summary attendees createResp attendeeResp).2 =
      (if createResp.code = 0 ∧
          strTruthy ((createResp.data.bind CreateEventData.event).bind EventData.event_id) ∧
          (attendees.getD []).length > 0
       then [.eventCreate summary (attendees.getD []).length,
             .attendeeCreate
               (((createResp.data.bind CreateEventData.event).bind EventData.event_id).getD "")
               (attendees.getD []).length]
       else [.eventCreate summary (attendees.getD []).length]) := by
  refine ⟨?_, ?_, ?_⟩
  · by_cases h : listResp.code = 0 <;> simp [listCalendars, h]
  · by_cases h : meetingResp.code = 0 <;> simp [getMeeting, h]
  · by_cases hc : createResp.code = 0
    · cases heid : (createResp.data.bind CreateEventData.event).bind EventData.event_id with
      | none =>
          cases attendees <;> simp [createEvent, hc, heid, strTruthy]
      | some eid =>
          cases attendees with
          | none => simp [createEvent, hc, heid, strTruthy]
          | some atts =>
              by_cases he : eid = ""
              · simp [createEvent, hc, heid, he, strTruthy]
              · by_cases hl : atts.length > 0
                · by_cases ha : attendeeResp.code = 0 <;>
                    simp [createEvent, hc, heid, he, hl, strTruthy, ha]
                · simp [createEvent, hc, heid, he, hl, strTruthy]
    · simp [createEvent, hc]

/-- C7: error propagation is retry-free — when the vendor response
carries a nonzero code, listCalendars and getMeeting throw the error
built from the vendor msg and code after exactly one remote call, and
urgentApp throws the vendor msg (or the code fallback) with its
single call issued and no further calls. -/
theorem nonzero_code_throws_without_retry (listResp : ApiResp CalendarListData)
    (meetingResp : ApiResp MeetingData) (urgentResp : ApiResp UrgentData)
    (mid : String) (uids : List String) (uit : Option UserIdType)
    (h1 : listResp.code ≠ 0) (h2 : meetingResp.code ≠ 0) (h3 : urgentResp.code ≠ 0) :
    listCalendars listResp = (.error (codeError listResp.code listResp.msg), 1) ∧
    getMeeting meetingResp = (.error (codeError meetingResp.code meetingResp.msg), 1) ∧
    urgentApp mid uids uit urgentResp =
      (.error (urgentResp.msg.getD ("Error code: " ++ toString urgentResp.code)),
       [⟨.app, mid, uids, uit.getD .open_id⟩]) := by
  refine ⟨?_, ?_, ?_⟩
  · simp [listCalendars, h1]
  · simp [getMeeting, h2]
  · simp [urgentApp, h3]

/-- Witness for C7 at concrete nonzero-code responses. -/
theorem nonzero_code_throws_without_retry_witness :
    listCalendars { code := 99, msg := some "boom" } =
      (.error "boom (code: 99)", 1) ∧
    getMeeting { code := 7 } = (.error "Unknown error (code: 7)", 1) ∧
    urgentApp "om_1" ["u"] none { code := 3 } =
      (.error "Error code: 3", [⟨.app, "om_1", ["u"], .open_id⟩]) := by
  have h := nonzero_code_throws_without_retry { code := 99, msg := some "boom" }
    { code := 7 } { code := 3 } "om_1" ["u"] none
    (by decide) (by decide) (by decide)
  exact ⟨h.1.trans (by rfl), h.2.1.trans (by rfl), h.2.2.trans (by rfl)⟩

/-- The delivery-channel routing table as the claim words it: the
`urgent` action follows `urgent_type`, and each convenience action is
pinned to its channel. -/
def intendedChannel : UrgentAction → Option UrgentType → Option UrgentType
  | .urgent, t => t
  | .urgent_app, _ => some .app
  | .urgent_sms, _ => some .sms
  | .urgent_phone, _ => some .phone

theorem mem_validIdTypes (t : UserIdType) : t ∈ validIdTypes := by
  cases t <;> decide

theorem strStartsWith_om_ne_empty (m : String) (h : strStartsWith m "om_") : m ≠ "" := by
  intro he
  rw [he] at h
  exact absurd h (by decide)

theorem urgentApp_calls (m : String) (u : List String) (t : Option UserIdType)
    (r : ApiResp UrgentData) :
    (urgentApp m u t r).2 = [⟨.app, m, u, t.getD .open_id⟩] := by
  by_cases h : r.code = 0 <;> simp [urgentApp, h]

theorem urgentSms_calls (m : String) (u : List String) (t : Option UserIdType)
    (r : ApiResp UrgentData) :
    (urgentSms m u t r).2 = [⟨.sms, m, u, t.getD .open_id⟩] := by
  by_cases h : r.code = 0 <;> simp [urgentSms, h]

theorem urgentPhone_calls (m : String) (u : List String) (t : Option UserIdType)
    (r : ApiResp UrgentData) :
    (urgentPhone m u t r).2 = [⟨.phone, m, u, t.getD .open_id⟩] := by
  by_cases h : r.code = 0 <;> simp [urgentPhone, h]

/-- C8: for every valid urgent request (well-formed om_ message id,
non-empty normalized user list within the 200 bound, and — for the
`urgent` action — a supplied urgent_type), the tool issues exactly one
remote call, to the channel endpoint the routing table picks: `app` the
in-app urgent API, `sms` the SMS urgent API, `phone` the phone urgent
API, and the convenience actions the same three, each attached to the
given message_id. -/
theorem urgent_routes_by_type (p : FeishuUrgentParams)
    (appResp smsResp phoneResp : ApiResp UrgentData)
    (hmid : strStartsWith p.message_id "om_")
    (hne : normalizeUserIds ⟨p.user_id, p.user_ids⟩ ≠ [])
    (hbound : (normalizeUserIds ⟨p.user_id, p.user_ids⟩).length ≤ 200)
    (ht : p.action = .urgent → p.urgent_type.isSome) :
    ∃ ch, intendedChannel p.action p.urgent_type = some ch ∧
      (urgentBody p appResp smsResp phoneResp).2 =
        [⟨ch, p.message_id, normalizeUserIds ⟨p.user_id, p.user_ids⟩,
          p.user_id_type.getD .open_id⟩] := by
  have hne0 : ¬ p.message_id = "" := strStartsWith_om_ne_empty p.message_id hmid
  have hlen0 : ¬ (normalizeUserIds ⟨p.user_id, p.user_ids⟩).length = 0 := by
    simpa [List.length_eq_zero] using hne
  have hgt : ¬ (normalizeUserIds ⟨p.user_id, p.user_ids⟩).length > 200 := by omega
  have hvalid : ¬ (p.user_id_type.getD .open_id) ∉ validIdTypes :=
    fun hcon => hcon (mem_validIdTypes _)
  cases ha : p.action with
  | urgent =>
      rcases hut : p.urgent_type with _ | t
      · exact absurd (ht ha) (by rw [hut]; simp)
      · cases t with
        | app =>
            exact ⟨.app, rfl, by
              simp only [urgentBody, hne0, hmid, hlen0, hgt, hvalid, ha, hut,
                if_neg, ite_false, liftUrgent]
              simp [urgentApp_calls]⟩
        | sms =>
            exact ⟨.sms, rfl, by
              simp only [urgentBody, hne0, hmid, hlen0, hgt, hvalid, ha, hut,
                if_neg, ite_false, liftUrgent]
              simp [urgentSms_calls]⟩
        | phone =>
            exact ⟨.phone, rfl, by
              simp only [urgentBody, hne0, hmid, hlen0, hgt, hvalid, ha, hut,
                if_neg, ite_false, liftUrgent]
              simp [urgentPhone_calls]⟩
  | urgent_app =>
      exact ⟨.app, rfl, by
        simp only [urgentBody, hne0, hmid, hlen0, hgt, hvalid, ha, liftUrgent]
        simp [urgentApp_calls]⟩
  | urgent_sms =>
      exact ⟨.sms, rfl, by
        simp only [urgentBody, hne0, hmid, hlen0, hgt, hvalid, ha, liftUrgent]
        simp [urgentSms_calls]⟩
  | urgent_phone =>
      exact ⟨.phone, rfl, by
        simp only [urgentBody, hne0, hmid, hlen0, hgt, hvalid, ha, liftUrgent]
        simp [urgentPhone_calls]⟩

/-- Witness for C8: the `urgent` action with urgent_type sms calls the
SMS endpoint, and the `urgent_phone` convenience action calls the phone
endpoint, at concrete requests. -/
theorem urgent_routes_by_type_witness :
    (urgentBody ⟨.urgent, "om_1", some .sms, some "u", none, none⟩
      { code := 0 } { code := 0 } { code := 0 }).2 =
      [⟨.sms, "om_1", ["u"], .open_id⟩] ∧
    (urgentBody ⟨.urgent_phone, "om_1", none, some "u", none, none⟩
      { code := 0 } { code := 0 } { code := 0 }).2 =
      [⟨.phone, "om_1", ["u"], .open_id⟩] := by
  constructor
  · obtain ⟨ch, hch, hcalls⟩ := urgent_routes_by_type
      ⟨.urgent, "om_1", some .sms, some "u", none, none⟩
      { code := 0 } { code := 0 } { code := 0 }
      (by decide) (by decide) (by decide) (fun _ => by decide)
    have hch' : ch = .sms := by
      simpa [intendedChannel] using hch.symm
    subst hch'
    exact hcalls.trans (by decide)
  · obtain ⟨ch, hch, hcalls⟩ := urgent_routes_by_type
      ⟨.urgent_phone, "om_1", none, some "u", none, none⟩
      { code := 0 } { code := 0 } { code := 0 }
      (by decide) (by decide) (by decide) (fun h => by cases h)
    have hch' : ch = .phone := by
      simpa [intendedChannel] using hch.symm
    subst hch'
    exact hcalls.trans (by decide)

/-- C9: every modelled batch operation enforces its user-count bound
before issuing any remote call — a normalized list over the limit (20
for create_app_feed_card, 50 for set_bot_time_sensitive, 200 for the
urgent actions with a well-formed message id) throws the "Too many
users" error with an empty call trace, and an empty normalized list
throws the missing-parameter error with an empty call trace. -/
theorem batch_user_bounds (pf pb : FeishuFeedParams) (pu : FeishuUrgentParams)
    (createResp : ApiResp FeedCreateData) (botPinResp : ApiResp FeedPinData)
    (appResp smsResp phoneResp : ApiResp UrgentData)
    (hmid : strStartsWith pu.message_id "om_") :
    ((normalizeUserIds ⟨pf.user_id, pf.user_ids⟩).length > 20 →
      createAppFeedCard pf createResp =
        (.error "Too many users: maximum 20 users per request", [])) ∧
    (normalizeUserIds ⟨pf.user_id, pf.user_ids⟩ = [] →
      createAppFeedCard pf createResp =
        (.error "Missing required parameter: user_ids (provide user_id or user_ids)", [])) ∧
    ((normalizeUserIds ⟨pb.user_id, pb.user_ids⟩).length > 50 →
      setBotTimeSensitive pb botPinResp =
        (.error "Too many users: maximum 50 users per request", [])) ∧
    (normalizeUserIds ⟨pb.user_id, pb.user_ids⟩ = [] →
      setBotTimeSensitive pb botPinResp =
        (.error "Missing required parameter: user_ids (provide user_id or user_ids)", [])) ∧
    ((normalizeUserIds ⟨pu.user_id, pu.user_ids⟩).length > 200 →
      urgentBody pu appResp smsResp phoneResp =
        (.error "Too many users: maximum 200 users per request", [])) ∧
    (normalizeUserIds ⟨pu.user_id, pu.user_ids⟩ = [] →
      urgentBody pu appResp smsResp phoneResp =
        (.error "Missing required parameter: user_ids (provide user_id or user_ids)", [])) := by
  have hne0 : ¬ pu.message_id = "" := strStartsWith_om_ne_empty pu.message_id hmid
  refine ⟨?_, ?_, ?_, ?_, ?_, ?_⟩
  · intro h
    have h0 : ¬ (normalizeUserIds ⟨pf.user_id, pf.user_ids⟩).length = 0 := by omega
    simp [createAppFeedCard, h0, h]
  · intro h
    simp [createAppFeedCard, h]
  · intro h
    have h0 : ¬ (normalizeUserIds ⟨pb.user_id, pb.user_ids⟩).length = 0 := by omega
    simp [setBotTimeSensitive, h0, h]
  · intro h
    simp [setBotTimeSensitive, h]
  · intro h
    have h0 : ¬ (normalizeUserIds ⟨pu.user_id, pu.user_ids⟩).length = 0 := by omega
    simp [urgentBody, hne0, hmid, h0, h]
  · intro h
    simp [urgentBody, hne0, hmid, h]

/-- Witness for C9 at concrete inputs: 21 users for
create_app_feed_card, none for set_bot_time_sensitive, 201 for an
urgent action. -/
theorem batch_user_bounds_witness :
    createAppFeedCard
      { action := .create_app_feed_card, user_ids := some (.list (List.replicate 21 "u")) }
      { code := 0 } =
      (.error "Too many users: maximum 20 users per request", []) ∧
    setBotTimeSensitive { action := .set_bot_time_sensitive } { code := 0 } =
      (.error "Missing required parameter: user_ids (provide user_id or user_ids)", []) ∧
    urgentBody
      { action := .urgent_app, message_id := "om_1",
        user_ids := some (.list (List.replicate 201 "u")) }
      { code := 0 } { code := 0 } { code := 0 } =
      (.error "Too many users: maximum 200 users per request", []) := by
  refine ⟨?_, ?_, ?_⟩
  · exact (batch_user_bounds
      { action := .create_app_feed_card, user_ids := some (.list (List.replicate 21 "u")) }
      { action := .set_bot_time_sensitive }
      { action := .urgent_app, message_id := "om_1" }
      { code := 0 } { code := 0 } { code := 0 } { code := 0 } { code := 0 }
      (by decide)).1 (by decide)
  · exact (batch_user_bounds
      { action := .create_app_feed_card }
      { action := .set_bot_time_sensitive }
      { action := .urgent_app, message_id := "om_1" }
      { code := 0 } { code := 0 } { code := 0 } { code := 0 } { code := 0 }
      (by decide)).2.2.2.1 (by decide)
  · exact (batch_user_bounds
      { action := .create_app_feed_card }
      { action := .set_bot_time_sensitive }
      { action := .urgent_app, message_id := "om_1",
        user_ids := some (.list (List.replicate 201 "u")) }
      { code := 0 } { code := 0 } { code := 0 } { code := 0 } { code := 0 }
      (by decide)).2.2.2.2.1 (by decide)

/-- What the claim asks of an execute result: the content of the envelope is
the single stringified text of its details, and the details are the
result of the handler — the value it produced, or `{ error: message }` for
the error it threw. -/
def isJsonEnvelopeOf (stringify : JVal → String) (env : ToolEnvelope)
    (body : Except String JVal) : Prop :=
  env.content = [("text", stringify env.details)] ∧
  env.details = (match body with
    | .ok v => v
    | .error m => .obj [("error", .str m)])

/-- C6: every modelled tool `execute` — calendar, feed, urgent — returns
the `json` envelope of the outcome of its handler: the content is the
JSON-stringified details, the details equal the result of the handler, and
any error thrown during validation or the remote call is caught and
returned as the `{ error: message }` envelope (the execute functions
are total, so they never throw). -/
theorem execute_wraps_json_envelope (stringify : JVal → String)
    (pc : FeishuCalendarParams) (nc : CalendarNet)
    (pf : FeishuFeedParams) (nf : FeedNet)
    (pu : FeishuUrgentParams) (appResp smsResp phoneResp : ApiResp UrgentData) :
    isJsonEnvelopeOf stringify (executeCalendar stringify pc nc).1 (calendarBody pc nc).1 ∧
    isJsonEnvelopeOf stringify (executeFeed stringify pf nf).1 (feedBody pf nf).1 ∧
    isJsonEnvelopeOf stringify (executeUrgent stringify pu appResp smsResp phoneResp).1
      (urgentBody pu appResp smsResp phoneResp).1 := by
  refine ⟨?_, ?_, ?_⟩
  · rcases h : calendarBody pc nc with ⟨r, calls⟩
    cases r with
    | ok v => simp [executeCalendar, h, isJsonEnvelopeOf, json]
    | error m => simp [executeCalendar, h, isJsonEnvelopeOf, json]
  · rcases h : feedBody pf nf with ⟨r, calls⟩
    cases r with
    | ok v => simp [executeFeed, h, isJsonEnvelopeOf, json]
    | error m => simp [executeFeed, h, isJsonEnvelopeOf, json]
  · rcases h : urgentBody pu appResp smsResp phoneResp with ⟨r, calls⟩
    cases r with
    | ok v => simp [executeUrgent, h, isJsonEnvelopeOf, json]
    | error m => simp [executeUrgent, h, isJsonEnvelopeOf, json]

end Feishu
